import Mathlib

/-!
Shallow embedding of the core evaluation pipeline of the AI interview
system (Streamlit app): the text-response analyzer
(`modules/audio_analyzer.py`), the visual-engagement analyzer
(`modules/video_analyzer.py`), the score aggregator and feedback
persistence (`modules/feedback_generator.py`) and the session
violation tracking in the main app (`app.py`).

Numeric scores are modelled with exact rationals (`ℚ`).  External
capabilities (VADER polarity, TextBlob correction, sentence-embedding
cosine similarity, MediaPipe landmark detection, the database engine)
are inputs of the embedded functions, exactly at the boundary where
the Python code consumes their results; an `Option` input encodes the
`try/except` failure path where the Python code guards the call.
-/

namespace InterviewSystem

/-- Model of Python `round(x, 2)`: round to two decimal places.  Exact
on rationals; agrees with the Python builtin whenever the value is not
an exact tie at the third decimal (Python breaks ties to even over
binary floats, this model rounds ties up; no result below depends on a
tie). -/
def round2 (q : ℚ) : ℚ := ((q * 100 + 1/2).floor : ℚ) / 100

/-! ## Text Response Analyzer (`modules/audio_analyzer.py`) -/

/-- Sentiment labels produced by `AudioAnalyzer.analyze_sentiment`. -/
inductive SentimentLabel where
  | Positive
  | Negative
  | Neutral
deriving DecidableEq

/-- Embedding of `AudioAnalyzer.analyze_sentiment` (audio_analyzer.py
lines 34-59).  The VADER compound polarity is an external capability;
its outcome is the argument: `some compound` for a successful
`polarity_scores` call, `none` for the exception path, which returns
the fail-soft default `{0.0, Neutral}`.  Returns
`(sentiment_score, sentiment_label)`. -/
def analyze_sentiment (polarity : Option ℚ) : ℚ × SentimentLabel :=
  match polarity with
  | some compound =>
      if 1/20 ≤ compound then (compound, .Positive)
      else if compound ≤ -(1/20) then (compound, .Negative)
      else (compound, .Neutral)
  | none => (0, .Neutral)

/-- Python `str.lower()` on a character list (ASCII case folding, which
covers every input used below). -/
def lowerStr (s : List Char) : List Char := s.map Char.toLower

/-- Python `str.split()` with no argument: split on whitespace runs,
discarding empty tokens.  `acc` holds the current word reversed. -/
def splitWordsAux : List Char → List Char → List (List Char)
  | [], acc => if acc.isEmpty then [] else [acc.reverse]
  | c :: rest, acc =>
      if c.isWhitespace then
        if acc.isEmpty then splitWordsAux rest []
        else acc.reverse :: splitWordsAux rest []
      else splitWordsAux rest (c :: acc)

/-- Python `transcript.split()`. -/
def splitWords (s : List Char) : List (List Char) := splitWordsAux s []

/-- Embedding of `AudioAnalyzer.check_grammar` (audio_analyzer.py lines
61-93).  TextBlob's `correct()` is an external capability; `corrected?`
is its outcome: `some corrected` on success, `none` for the exception
path (which returns the fixed fallback 75).  On success: 0 if the
transcript has no words; otherwise the score is 100 when the corrected
text equals the input, else the unchanged-word-set ratio times 100;
the score is rounded to two decimals as in the source. -/
def check_grammar (transcript : List Char) (corrected? : Option (List Char)) : ℚ :=
  match corrected? with
  | none => 75
  | some corrected =>
      let words := (splitWords transcript).length
      if words = 0 then 0
      else
        let score : ℚ :=
          if transcript = corrected then 100
          else
            let original_words := (splitWords (lowerStr transcript)).dedup
            let corrected_words := splitWords (lowerStr corrected)
            let unchanged := (original_words.filter (fun w => w ∈ corrected_words)).length
            ((unchanged : ℚ) / words) * 100
        round2 score

/-- Result record of `AudioAnalyzer.match_keywords`. -/
structure KeywordResult where
  keyword_match_score : ℚ
  matched_keywords : List (List Char)
  semantic_similarity : ℚ
deriving DecidableEq

/-- Embedding of `AudioAnalyzer.match_keywords` (audio_analyzer.py
lines 95-137).  The sentence-embedding cosine similarity is an
external capability; `cos_sim?` is its outcome: `some sim` on success,
`none` for the exception path, which returns the fail-soft record
`{0, [], 0}` (discarding the keyword results as the Python `except`
does).  Keyword matching is a case-insensitive substring containment
test of each expected keyword against the transcript. -/
def match_keywords (user_transcript : List Char) (expected_keywords : List (List Char))
    (cos_sim? : Option ℚ) : KeywordResult :=
  match cos_sim? with
  | none => ⟨0, [], 0⟩
  | some sim =>
      let user_lower := lowerStr user_transcript
      let matched := expected_keywords.filter (fun k => decide (lowerStr k <:+: user_lower))
      let keyword_match : ℚ :=
        if 0 < expected_keywords.length then
          ((matched.length : ℚ) / expected_keywords.length) * 100
        else 50
      ⟨round2 keyword_match, matched, round2 (sim * 100)⟩

/-! ## Visual Engagement Analyzer (`modules/video_analyzer.py`) -/

/-- Gaze classification record returned by
`VideoAnalyzer.calculate_gaze_direction`. -/
structure GazeResult where
  looking_at_camera : Bool
  horizontal_ratio : ℚ
  vertical_ratio : ℚ
deriving DecidableEq

/-- Iris landmark indices of the left eye (video_analyzer.py line 48). -/
def LEFT_IRIS : List ℕ := [468, 469, 470, 471, 472]

/-- Model of `numpy.mean` over a list of rationals. -/
def meanQ (l : List ℚ) : ℚ := l.sum / (l.length : ℚ)

/-- Embedding of `VideoAnalyzer.calculate_gaze_direction`
(video_analyzer.py lines 71-119).  The MediaPipe landmark list is the
external detector's output, modelled as a map from landmark index to
its normalized `(x, y)` position.  `frame_width` and `frame_height`
are accepted and unused, as in the source.  The left-eye corners are
landmarks 33 and 133; the classification threshold is 0.3 and is
applied to the unrounded ratios, while the returned ratios are rounded
to two decimals as in the source. -/
def calculate_gaze_direction (lm : ℕ → ℚ × ℚ)
    (frame_width frame_height : ℕ) : GazeResult :=
  let _ := frame_width
  let _ := frame_height
  let left_iris_x := meanQ (LEFT_IRIS.map (fun i => (lm i).1))
  let left_iris_y := meanQ (LEFT_IRIS.map (fun i => (lm i).2))
  let left_eye_left := (lm 33).1
  let left_eye_right := (lm 133).1
  let left_eye_width := left_eye_right - left_eye_left
  let left_iris_position := (left_iris_x - left_eye_left) / left_eye_width
  let horizontal_ratio := (left_iris_position - 1/2) * 2
  let vertical_ratio := (left_iris_y - 1/2) * 2
  ⟨decide (|horizontal_ratio| < 3/10 ∧ |vertical_ratio| < 3/10),
   round2 horizontal_ratio, round2 vertical_ratio⟩

/-- Outcome of `VideoAnalyzer.analyze_frame` for one frame that is not
`None`: whether a face was detected, whether the gaze classifier judged
it looking at the camera, and the capture timestamp (abstract: the
source stores `datetime.now().isoformat()`).  In `analyze_video_frames`
a frame whose analysis is `None` (empty image) is modelled as `none`. -/
structure FrameAnalysis where
  face_detected : Bool
  looking_at_camera : Bool
  timestamp : ℕ
deriving DecidableEq

/-- One recorded gaze violation: frame index plus capture timestamp. -/
structure Violation where
  frame_number : ℕ
  timestamp : ℕ
deriving DecidableEq

/-- Batch metrics returned by `VideoAnalyzer.analyze_video_frames`. -/
structure VideoMetrics where
  total_frames : ℕ
  frames_with_face : ℕ
  face_detection_rate : ℚ
  frames_looking_at_camera : ℕ
  eye_contact_score : ℚ
  gaze_violations : ℕ
  violation_details : List Violation
deriving DecidableEq

/-- The per-frame loop of `analyze_video_frames` (video_analyzer.py
lines 179-192), started at frame index `idx`: counts frames with a
face, frames looking at the camera, and collects the violations (face
detected but not looking) in frame order. -/
def scanFrames : List (Option FrameAnalysis) → ℕ → ℕ × ℕ × List Violation
  | [], _ => (0, 0, [])
  | f :: rest, idx =>
      let acc := scanFrames rest (idx + 1)
      match f with
      | some r =>
          if r.face_detected then
            if r.looking_at_camera then (acc.1 + 1, acc.2.1 + 1, acc.2.2)
            else (acc.1 + 1, acc.2.1, ⟨idx, r.timestamp⟩ :: acc.2.2)
          else acc
      | none => acc

/-- Embedding of `VideoAnalyzer.analyze_video_frames`
(video_analyzer.py lines 160-206).  The input is the list of per-frame
analysis outcomes (face detection is the external capability).  An
empty list returns `None`.  Rates are rounded to two decimals as in
the source; the eye-contact score is 0 when no face was ever detected;
only the first 10 violations are stored while the count is over all of
them. -/
def analyze_video_frames (frames : List (Option FrameAnalysis)) : Option VideoMetrics :=
  if frames.isEmpty then none
  else
    let total_frames := frames.length
    let scan := scanFrames frames 0
    let frames_with_face := scan.1
    let frames_looking_at_camera := scan.2.1
    let violations := scan.2.2
    let face_detection_rate : ℚ :=
      if 0 < total_frames then ((frames_with_face : ℚ) / (total_frames : ℚ)) * 100 else 0
    let eye_contact_score : ℚ :=
      if 0 < frames_with_face then
        ((frames_looking_at_camera : ℚ) / (frames_with_face : ℚ)) * 100
      else 0
    some ⟨total_frames, frames_with_face, round2 face_detection_rate,
          frames_looking_at_camera, round2 eye_contact_score,
          violations.length, violations.take 10⟩

/-! ## Score Aggregator (`modules/feedback_generator.py`) -/

/-- The per-response metrics of a persisted `Response` row that
`calculate_overall_score` reads; each is nullable in the schema. -/
structure Response where
  sentiment_score : Option ℚ
  grammar_score : Option ℚ
  keyword_match_score : Option ℚ
  eye_contact_score : Option ℚ
deriving DecidableEq

/-- Aggregate scores returned by
`FeedbackGenerator.calculate_overall_score`. -/
structure Scores where
  overall_score : ℚ
  content_score : ℚ
  audio_score : ℚ
  video_score : ℚ
  total_questions : ℕ
deriving DecidableEq

/-- The audio sub-score of one response (feedback_generator.py lines
52-58): defined only when both the sentiment score and the grammar
score are present, as `sentiment * 0.5 + grammar * 0.5` — the raw
compound sentiment, with no rescaling. -/
def respAudio? (r : Response) : Option ℚ :=
  match r.sentiment_score, r.grammar_score with
  | some s, some g => some (s * (1/2) + g * (1/2))
  | _, _ => none

/-- Accumulator of the response loop in `calculate_overall_score`. -/
structure ScoreAcc where
  total_audio : ℚ
  audio_count : ℕ
  total_video : ℚ
  video_count : ℕ
  total_content : ℚ
  content_count : ℕ
deriving DecidableEq

/-- The response loop of `calculate_overall_score`
(feedback_generator.py lines 50-68): each metric contributes to its
own total and count exactly when it is present on that response. -/
def scoreTotals : List Response → ScoreAcc
  | [] => ⟨0, 0, 0, 0, 0, 0⟩
  | r :: rest =>
      let acc := scoreTotals rest
      { total_audio :=
          match respAudio? r with
          | some a => a + acc.total_audio
          | none => acc.total_audio
        audio_count :=
          match respAudio? r with
          | some _ => acc.audio_count + 1
          | none => acc.audio_count
        total_video :=
          match r.eye_contact_score with
          | some v => v + acc.total_video
          | none => acc.total_video
        video_count :=
          match r.eye_contact_score with
          | some _ => acc.video_count + 1
          | none => acc.video_count
        total_content :=
          match r.keyword_match_score with
          | some c => c + acc.total_content
          | none => acc.total_content
        content_count :=
          match r.keyword_match_score with
          | some _ => acc.content_count + 1
          | none => acc.content_count }

/-- Embedding of `FeedbackGenerator.calculate_overall_score`
(feedback_generator.py lines 20-88), applied to the `Response` rows of
the interview.  Returns `None` when there are no responses; otherwise
each average is over the responses carrying that metric (0 when none
does), and the overall score is `content * 0.5 + audio * 0.3 +
video * 0.2`, all four rounded to two decimals as in the source. -/
def calculate_overall_score (responses : List Response) : Option Scores :=
  if responses.isEmpty then none
  else
    let acc := scoreTotals responses
    let avg_audio : ℚ :=
      if 0 < acc.audio_count then acc.total_audio / (acc.audio_count : ℚ) else 0
    let avg_video : ℚ :=
      if 0 < acc.video_count then acc.total_video / (acc.video_count : ℚ) else 0
    let avg_content : ℚ :=
      if 0 < acc.content_count then acc.total_content / (acc.content_count : ℚ) else 0
    let overall_score := avg_content * (1/2) + avg_audio * (3/10) + avg_video * (1/5)
    some ⟨round2 overall_score, round2 avg_content, round2 avg_audio,
          round2 avg_video, responses.length⟩

/-! ## Feedback persistence (`FeedbackGenerator.save_feedback`) -/

/-- The structured narrative produced by `generate_ai_feedback` (either
parsed from the external model's output or the fixed fallback). -/
structure AIFeedback where
  strengths : List (List Char)
  weaknesses : List (List Char)
  recommendations : List (List Char)
deriving DecidableEq

/-- Python `'\n'.join(items)`. -/
def joinLines (items : List (List Char)) : List Char :=
  List.intercalate [Char.ofNat 10] items

/-- A persisted `Feedback` row: primary key, owning interview, the four
aggregate scores, the newline-joined narrative lists and the
denormalized per-question snapshot (kept abstract as its serialized
form). -/
structure FeedbackRow where
  id : ℕ
  interview_id : ℕ
  overall_score : ℚ
  content_score : ℚ
  audio_score : ℚ
  video_score : ℚ
  strengths : List Char
  weaknesses : List Char
  recommendations : List Char
  question_wise_analysis : List Char
deriving DecidableEq

/-- Replace the first element satisfying `p` by its image under `f`;
models an SQLAlchemy in-place update of the row returned by
`query(...).filter_by(...).first()`. -/
def replaceFirst (p : α → Bool) (f : α → α) : List α → List α
  | [] => []
  | x :: xs => if p x then f x :: xs else x :: replaceFirst p f xs

/-- The field overwrite performed on an existing feedback row
(feedback_generator.py lines 243-254): every payload field is
replaced, the primary key and owning interview are untouched. -/
def updateFeedbackRow (scores : Scores) (ai : AIFeedback) (qa : List Char)
    (r : FeedbackRow) : FeedbackRow :=
  { r with
    overall_score := scores.overall_score
    content_score := scores.content_score
    audio_score := scores.audio_score
    video_score := scores.video_score
    strengths := joinLines ai.strengths
    weaknesses := joinLines ai.weaknesses
    recommendations := joinLines ai.recommendations
    question_wise_analysis := qa }

/-- Embedding of `FeedbackGenerator.save_feedback`
(feedback_generator.py lines 214-278) against a database modelled as
the list of `Feedback` rows.  `responses` are the interview's
`Response` rows (so `calculate_overall_score` returning `None` is the
early `return None` with the store untouched); `ai` and `qa` are the
generated narrative and per-question snapshot; `newId` is the primary
key the engine would assign on insert.  If a feedback row for the
interview already exists its fields are overwritten in place and its
id returned; otherwise exactly one new row is appended. -/
def save_feedback (db : List FeedbackRow) (interview_id : ℕ)
    (responses : List Response) (ai : AIFeedback) (qa : List Char)
    (newId : ℕ) : Option ℕ × List FeedbackRow :=
  match calculate_overall_score responses with
  | none => (none, db)
  | some scores =>
      match db.find? (fun r => r.interview_id == interview_id) with
      | some existing =>
          (some existing.id,
           replaceFirst (fun r => r.interview_id == interview_id)
             (updateFeedbackRow scores ai qa) db)
      | none =>
          (some newId,
           db ++ [{ id := newId, interview_id := interview_id,
                    overall_score := scores.overall_score,
                    content_score := scores.content_score,
                    audio_score := scores.audio_score,
                    video_score := scores.video_score,
                    strengths := joinLines ai.strengths,
                    weaknesses := joinLines ai.weaknesses,
                    recommendations := joinLines ai.recommendations,
                    question_wise_analysis := qa }])

/-- Number of feedback rows owned by one interview. -/
def feedbackCount (db : List FeedbackRow) (interview_id : ℕ) : ℕ :=
  db.countP (fun r => r.interview_id == interview_id)

/-! ## Session Violation Tracker (`app.py`) -/

/-- A persisted `Response` row of the active interview as
`save_response` (modules/response_handler.py) creates it; only
identity matters here. -/
structure SavedResponse where
  question_id : ℕ
  transcript : List Char
deriving DecidableEq

/-- The Streamlit session state relevant to violation tracking
(app.py `initialize_session_state`), together with the `Response` rows
persisted for the active interview. -/
structure SessionState where
  interview_id : Option ℕ
  current_question : ℕ
  questions_generated : Bool
  interview_completed : Bool
  total_gaze_violations : ℕ
  saved_responses : List SavedResponse
deriving DecidableEq

/-- Embedding of `reset_interview` (app.py lines 86-93): every session
variable returns to its initial value; the new interview has no
persisted responses yet (the old interview's rows stay in the database
under the old interview id, which is dropped from the session). -/
def reset_interview (s : SessionState) : SessionState :=
  let _ := s
  { interview_id := none
    current_question := 0
    questions_generated := false
    interview_completed := false
    total_gaze_violations := 0
    saved_responses := [] }

/-- Embedding of the accepted-answer branch of the interview session
tab (app.py lines 368-476): `video_metrics` is the result of
`analyze_video_frames` when video frames were captured (`none` when no
video or an empty batch, a skipped falsy value in Python).  When video
metrics are present the batch's `gaze_violations` is added to the
cumulative counter; if the counter is then at least 5 the script sets
`current_question` past the last question and stops (`st.stop()`)
before the database save, so no `Response` row is created; otherwise
the response is saved and the session advances one question. -/
def processAnswer (numQuestions : ℕ) (s : SessionState)
    (video_metrics : Option VideoMetrics) (resp : SavedResponse) : SessionState :=
  match video_metrics with
  | some vm =>
      let total := s.total_gaze_violations + vm.gaze_violations
      if 5 ≤ total then
        { s with total_gaze_violations := total, current_question := numQuestions }
      else
        { s with total_gaze_violations := total,
                 saved_responses := s.saved_responses ++ [resp],
                 current_question := s.current_question + 1 }
  | none =>
      { s with saved_responses := s.saved_responses ++ [resp],
               current_question := s.current_question + 1 }

/-- The session-tab navigation events that do not start a new
interview: answering the current question, the Previous button, and
the Next button on an already answered question (app.py lines
356-482). -/
inductive SessionStep where
  | answer (video_metrics : Option VideoMetrics) (resp : SavedResponse)
  | previous
  | skipNext

/-- One navigation event applied to the session state. -/
def applyStep (numQuestions : ℕ) (s : SessionState) : SessionStep → SessionState
  | .answer vm resp => processAnswer numQuestions s vm resp
  | .previous =>
      if 0 < s.current_question then
        { s with current_question := s.current_question - 1 }
      else s
  | .skipNext => { s with current_question := s.current_question + 1 }

/-- A sequence of navigation events within one interview. -/
def applySteps (numQuestions : ℕ) (steps : List SessionStep) (s : SessionState) :
    SessionState :=
  steps.foldl (applyStep numQuestions) s

/-- The session tab renders the answering interface only while
`current_question` is strictly below the number of questions (app.py
lines 238-243); past it the interview is shown as complete and no
further answer can be submitted. -/
def acceptsAnswers (numQuestions : ℕ) (s : SessionState) : Bool :=
  s.current_question < numQuestions

/-! ## Helper lemmas -/

/-- The executable two-decimal rounding agrees with Mathlib's `round`
applied to the value scaled by 100. -/
lemma round2_eq (q : ℚ) : round2 q = ((round (q * 100) : ℤ) : ℚ) / 100 := by
  unfold round2
  rw [round_eq]
  norm_num [Rat.floor_def, (Rat.floor_def' _)]

/-- Rounding to two decimals is monotone. -/
lemma round2_mono {x y : ℚ} (h : x ≤ y) : round2 x ≤ round2 y := by
  rw [round2_eq, round2_eq]
  have : round (x * 100) ≤ round (y * 100) := by
    rw [round_eq, round_eq]
    exact Int.floor_le_floor (by linarith)
  have hc : ((round (x * 100) : ℤ) : ℚ) ≤ ((round (y * 100) : ℤ) : ℚ) := by
    exact_mod_cast this
  linarith

/-- Evaluation rule for `round2` at a concrete rational: any integer
`z` within the half-open unit window around `q * 100` is the scaled
rounding. -/
lemma round2_concrete (q : ℚ) (z : ℤ) (h1 : (z : ℚ) ≤ q * 100 + 1/2)
    (h2 : q * 100 + 1/2 < (z : ℚ) + 1) : round2 q = (z : ℚ) / 100 := by
  rw [round2_eq, round_eq]
  have hf : ⌊q * 100 + 1/2⌋ = z := Int.floor_eq_iff.mpr ⟨h1, h2⟩
  rw [hf]

/-- Rounding to two decimals fixes integers. -/
lemma round2_intCast (n : ℤ) : round2 (n : ℚ) = n := by
  have h := round2_concrete (n : ℚ) (n * 100) (by push_cast; linarith) (by push_cast; linarith)
  rw [h]
  push_cast
  ring

/-- Rounding to two decimals fixes 50, the neutral keyword score. -/
lemma round2_fifty : round2 (50 : ℚ) = 50 := by
  have h := round2_intCast 50
  norm_num at h
  exact h

/-- Rounding to two decimals fixes 100, the perfect score. -/
lemma round2_hundred : round2 (100 : ℚ) = 100 := by
  have h := round2_intCast 100
  norm_num at h
  exact h

/-- Rounding to two decimals fixes 0. -/
lemma round2_zero : round2 (0 : ℚ) = 0 := by
  have h := round2_intCast 0
  norm_num at h
  exact h

/-- Counting the common members of two lists as sets: the length of the
deduplicated first list filtered by membership in the second equals the
cardinality of the intersection of their `Finset`s of members. -/
lemma length_dedup_filter_mem (l1 l2 : List (List Char)) :
    ((l1.dedup.filter (fun w => w ∈ l2)).length : ℕ)
      = (l1.toFinset ∩ l2.toFinset).card := by
  classical
  rw [← List.toFinset_card_of_nodup ((l1.nodup_dedup).filter _)]
  congr 1
  ext a
  simp [List.mem_filter, List.mem_dedup]

/-! ## C6: sentiment classification -/

/-- C6: for every transcript, the sentiment label returned by
`analyze_sentiment` is a deterministic function of the compound score
via the fixed thresholds — Positive iff compound ≥ 0.05, Negative iff
compound ≤ −0.05, otherwise Neutral — the returned score is the
compound itself, and a failed (or empty, for which VADER reports
compound 0) analysis yields `{score 0.0, label Neutral}` without
raising. -/
theorem analyze_sentiment_deterministic (c : ℚ) :
    ((analyze_sentiment (some c)).2 = .Positive ↔ 1/20 ≤ c) ∧
    ((analyze_sentiment (some c)).2 = .Negative ↔ c ≤ -(1/20)) ∧
    ((analyze_sentiment (some c)).2 = .Neutral ↔ -(1/20) < c ∧ c < 1/20) ∧
    (analyze_sentiment (some c)).1 = c ∧
    analyze_sentiment none = (0, .Neutral) := by
  have key : analyze_sentiment (some c) =
      (if 1/20 ≤ c then ((c : ℚ), SentimentLabel.Positive)
       else if c ≤ -(1/20) then (c, SentimentLabel.Negative)
       else (c, SentimentLabel.Neutral)) := rfl
  by_cases h1 : (1 : ℚ)/20 ≤ c
  · rw [key, if_pos h1]
    exact ⟨iff_of_true rfl h1,
           iff_of_false (fun h => SentimentLabel.noConfusion h) (by intro h; linarith),
           iff_of_false (fun h => SentimentLabel.noConfusion h) (by intro h; linarith [h.2]),
           rfl, rfl⟩
  · by_cases h2 : c ≤ -(1/20)
    · rw [key, if_neg h1, if_pos h2]
      exact ⟨iff_of_false (fun h => SentimentLabel.noConfusion h) h1,
             iff_of_true rfl h2,
             iff_of_false (fun h => SentimentLabel.noConfusion h) (by intro h; linarith [h.1]),
             rfl, rfl⟩
    · rw [key, if_neg h1, if_neg h2]
      exact ⟨iff_of_false (fun h => SentimentLabel.noConfusion h) h1,
             iff_of_false (fun h => SentimentLabel.noConfusion h) h2,
             iff_of_true rfl ⟨not_le.mp h2, not_le.mp h1⟩,
             rfl, rfl⟩

/-- Witness for C6 at a concrete compound score. -/
theorem analyze_sentiment_deterministic_witness :
    (analyze_sentiment (some (1/10))).2 = .Positive :=
  (analyze_sentiment_deterministic (1/10)).1.mpr (by norm_num)

/-! ## C4: keyword matching -/

/-- C4, corrected: with a successful analysis, an empty expected-keyword
list yields exactly 50; otherwise each expected keyword is matched by
case-insensitive substring containment against the transcript,
`matched_keywords` is the sublist of keywords that matched, and the
score is `matched / expected × 100` rounded to two decimal places (the
source applies `round(x, 2)`).  The semantic similarity field is the
external cosine value times 100, also rounded; a failed analysis
yields the fail-soft record. -/
theorem match_keywords_spec (t : List Char) (ks : List (List Char)) (sim : ℚ) :
    ((match_keywords t ks (some sim)).matched_keywords
        = ks.filter (fun k => decide (lowerStr k <:+: lowerStr t))) ∧
    (∀ k, k ∈ (match_keywords t ks (some sim)).matched_keywords ↔
        k ∈ ks ∧ lowerStr k <:+: lowerStr t) ∧
    (ks = [] → (match_keywords t ks (some sim)).keyword_match_score = 50) ∧
    (ks ≠ [] → (match_keywords t ks (some sim)).keyword_match_score
        = round2 ((((ks.filter (fun k => decide (lowerStr k <:+: lowerStr t))).length : ℚ)
            / (ks.length : ℚ)) * 100)) ∧
    ((match_keywords t ks (some sim)).semantic_similarity = round2 (sim * 100)) ∧
    match_keywords t ks none = ⟨0, [], 0⟩ := by
  refine ⟨rfl, ?_, ?_, ?_, rfl, rfl⟩
  · intro k
    show k ∈ ks.filter (fun k => decide (lowerStr k <:+: lowerStr t)) ↔ _
    simp [List.mem_filter]
  · intro hks
    subst hks
    show round2 50 = 50
    exact round2_fifty
  · intro hks
    have hlen : 0 < ks.length := List.length_pos.mpr hks
    show round2 (if 0 < ks.length then _ else _) = _
    rw [if_pos hlen]

/-- Witness for C4: two expected keywords, one matching, successful
analysis; the score is exactly 50 and the matched list is the matching
keyword. -/
theorem match_keywords_spec_witness :
    (match_keywords [Char.ofNat 112, Char.ofNat 121]
        [[Char.ofNat 112, Char.ofNat 121], [Char.ofNat 106, Char.ofNat 97]]
        (some 0)).keyword_match_score = 50 := by
  rw [(match_keywords_spec [Char.ofNat 112, Char.ofNat 121]
        [[Char.ofNat 112, Char.ofNat 121], [Char.ofNat 106, Char.ofNat 97]] 0).2.2.2.1
      (by simp)]
  have hfil : ([[Char.ofNat 112, Char.ofNat 121], [Char.ofNat 106, Char.ofNat 97]] :
      List (List Char)).filter
        (fun k => decide (lowerStr k <:+: lowerStr [Char.ofNat 112, Char.ofNat 121]))
      = [[Char.ofNat 112, Char.ofNat 121]] := by decide
  rw [hfil]
  simp only [List.length_cons, List.length_nil]
  norm_num
  exact round2_fifty

/-- Counterexample for C4 as stated: with three expected keywords of
which one matches, the stored score is 33.33, not the exact ratio
`1/3 × 100`. -/
theorem match_keywords_counterexample :
    ¬ ((match_keywords [Char.ofNat 97]
          [[Char.ofNat 97], [Char.ofNat 98], [Char.ofNat 99]]
          (some 0)).keyword_match_score = 1 / 3 * 100) := by
  intro h
  have hfil : ([[Char.ofNat 97], [Char.ofNat 98], [Char.ofNat 99]] :
      List (List Char)).filter
        (fun k => decide (lowerStr k <:+: lowerStr [Char.ofNat 97]))
      = [[Char.ofNat 97]] := by decide
  have e : (match_keywords [Char.ofNat 97]
        [[Char.ofNat 97], [Char.ofNat 98], [Char.ofNat 99]]
        (some 0)).keyword_match_score
      = round2 (((([[Char.ofNat 97], [Char.ofNat 98], [Char.ofNat 99]] :
            List (List Char)).filter
              (fun k => decide (lowerStr k <:+: lowerStr [Char.ofNat 97]))).length : ℚ)
          / (([[Char.ofNat 97], [Char.ofNat 98], [Char.ofNat 99]] :
            List (List Char)).length : ℚ) * 100) := rfl
  rw [e, hfil] at h
  simp only [List.length_cons, List.length_nil] at h
  norm_num at h
  rw [round2_concrete ((100 : ℚ) / 3) 3333 (by norm_num) (by norm_num)] at h
  norm_num at h

/-! ## C5: grammar scoring -/

/-- C5, corrected: a failed analysis returns the fixed fallback 75; a
transcript with zero words scores 0; a transcript the correction
capability leaves identical scores exactly 100; otherwise the score is
the number of words common to the input and corrected texts as
lower-cased word sets, divided by the total input word count, times
100, rounded to two decimal places (the source applies
`round(score, 2)`). -/
theorem check_grammar_spec (t c : List Char) :
    check_grammar t none = 75 ∧
    ((splitWords t).length = 0 → check_grammar t (some c) = 0) ∧
    (0 < (splitWords t).length → t = c → check_grammar t (some c) = 100) ∧
    (0 < (splitWords t).length → t ≠ c →
      check_grammar t (some c) =
        round2 (((((splitWords (lowerStr t)).toFinset
              ∩ (splitWords (lowerStr c)).toFinset).card : ℚ)
          / ((splitWords t).length : ℚ)) * 100)) := by
  refine ⟨rfl, ?_, ?_, ?_⟩
  · intro h0
    show (if (splitWords t).length = 0 then (0 : ℚ) else _) = 0
    rw [if_pos h0]
  · intro hw htc
    subst htc
    show (if (splitWords t).length = 0 then (0 : ℚ)
          else round2 (if t = t then 100 else _)) = 100
    rw [if_neg (by omega), if_pos rfl]
    exact round2_hundred
  · intro hw htc
    show (if (splitWords t).length = 0 then (0 : ℚ)
          else round2 (if t = c then 100 else _)) = _
    rw [if_neg (by omega), if_neg htc]
    show round2 ((((splitWords (lowerStr t)).dedup.filter
          (fun w => w ∈ splitWords (lowerStr c))).length : ℚ)
        / ((splitWords t).length : ℚ) * 100) = _
    rw [length_dedup_filter_mem]

/-- Witness for C5 at a concrete transcript the corrector leaves
unchanged: the score is exactly 100. -/
theorem check_grammar_spec_witness :
    check_grammar [Char.ofNat 111, Char.ofNat 107]
      (some [Char.ofNat 111, Char.ofNat 107]) = 100 :=
  (check_grammar_spec [Char.ofNat 111, Char.ofNat 107]
      [Char.ofNat 111, Char.ofNat 107]).2.2.1 (by decide) rfl

/-- The transcript "teh cat sat". -/
def tehCatSat : List Char :=
  [Char.ofNat 116, Char.ofNat 101, Char.ofNat 104, Char.ofNat 32,
   Char.ofNat 99, Char.ofNat 97, Char.ofNat 116, Char.ofNat 32,
   Char.ofNat 115, Char.ofNat 97, Char.ofNat 116]

/-- The corrected text "the cat sat". -/
def theCatSat : List Char :=
  [Char.ofNat 116, Char.ofNat 104, Char.ofNat 101, Char.ofNat 32,
   Char.ofNat 99, Char.ofNat 97, Char.ofNat 116, Char.ofNat 32,
   Char.ofNat 115, Char.ofNat 97, Char.ofNat 116]

/-- Counterexample for C5 as stated: "teh cat sat" corrected to
"the cat sat" has 2 of 3 words unchanged; the stored score is 66.67,
not the exact ratio `2/3 × 100`. -/
theorem check_grammar_counterexample :
    ¬ (check_grammar tehCatSat (some theCatSat) = 2 / 3 * 100) := by
  intro h
  have e : check_grammar tehCatSat (some theCatSat)
      = round2 ((((splitWords (lowerStr tehCatSat)).dedup.filter
            (fun w => w ∈ splitWords (lowerStr theCatSat))).length : ℚ)
          / ((splitWords tehCatSat).length : ℚ) * 100) := by
    show (if (splitWords tehCatSat).length = 0 then (0 : ℚ)
          else round2 (if tehCatSat = theCatSat then 100 else _)) = _
    rw [if_neg (by decide), if_neg (show ¬ tehCatSat = theCatSat by decide)]
  have hcard : ((splitWords (lowerStr tehCatSat)).dedup.filter
      (fun w => w ∈ splitWords (lowerStr theCatSat))).length = 2 := by decide
  have hlen : (splitWords tehCatSat).length = 3 := by decide
  rw [e, hcard, hlen] at h
  norm_num at h
  rw [round2_concrete ((200 : ℚ) / 3) 6667 (by norm_num) (by norm_num)] at h
  norm_num at h

/-! ## C9: semantic similarity -/

/-- C9, corrected: the semantic-similarity score stored by
`match_keywords` equals the external cosine similarity scaled by 100
and rounded to two decimal places; since the cosine of two embedding
vectors lies in [−1, 1], the score lies in the −100..100 range — not
the claimed 0..100 range: the score can be negative, as the concrete
cosine −1/2 shows. -/
theorem semantic_similarity_range (t : List Char) (ks : List (List Char)) (sim : ℚ)
    (h1 : -1 ≤ sim) (h2 : sim ≤ 1) :
    (match_keywords t ks (some sim)).semantic_similarity = round2 (sim * 100) ∧
    -100 ≤ (match_keywords t ks (some sim)).semantic_similarity ∧
    (match_keywords t ks (some sim)).semantic_similarity ≤ 100 := by
  have hlo : round2 ((-100 : ℚ)) = -100 := by
    have h := round2_intCast (-100)
    norm_num at h
    exact h
  refine ⟨rfl, ?_, ?_⟩
  · show (-100 : ℚ) ≤ round2 (sim * 100)
    calc (-100 : ℚ) = round2 (-100) := hlo.symm
      _ ≤ round2 (sim * 100) := round2_mono (by linarith)
  · show round2 (sim * 100) ≤ 100
    calc round2 (sim * 100) ≤ round2 100 := round2_mono (by linarith)
      _ = 100 := round2_hundred

/-- Witness for C9 at a concrete cosine similarity of −1/2. -/
theorem semantic_similarity_range_witness :
    -100 ≤ (match_keywords [] [] (some (-(1/2)))).semantic_similarity :=
  (semantic_similarity_range [] [] (-(1/2)) (by norm_num) (by norm_num)).2.1

/-- Counterexample for C9 as stated: a cosine similarity of −1/2 (a
value the unclamped external cosine can take) is stored as −50, which
is outside the claimed 0..100 range. -/
theorem semantic_similarity_counterexample :
    (match_keywords [] [] (some (-(1/2)))).semantic_similarity < 0 := by
  show round2 ((-(1/2) : ℚ) * 100) < 0
  have harg : ((-(1/2) : ℚ) * 100) = ((-50 : ℤ) : ℚ) := by norm_num
  rw [harg, round2_intCast]
  norm_num

/-! ## C7: per-frame gaze classification -/

/-- The horizontal gaze ratio as the spec formula states it:
`((iris_x − eye_left_x) / eye_width − 0.5) × 2` over the left-eye
landmarks. -/
def horizontalRatioOf (lm : ℕ → ℚ × ℚ) : ℚ :=
  ((meanQ (LEFT_IRIS.map (fun i => (lm i).1)) - (lm 33).1)
      / ((lm 133).1 - (lm 33).1) - 1/2) * 2

/-- The vertical gaze ratio as the spec states it: the iris vertical
position centered at 0.5 and scaled to ±1. -/
def verticalRatioOf (lm : ℕ → ℚ × ℚ) : ℚ :=
  (meanQ (LEFT_IRIS.map (fun i => (lm i).2)) - 1/2) * 2

/-- C7: for every frame with a detected face (landmarks with a
positive left-eye corner span, as any real detection hit has), the
gaze classifier computes the horizontal ratio
`((iris_x − eye_left_x) / eye_width − 0.5) × 2`, the vertical ratio
from the iris vertical position centered at 0.5 and scaled to ±1, and
reports `looking_at_camera` exactly when both ratios are inside the
symmetric 0.3 tolerance band; the returned ratio fields are these
values rounded to two decimals. -/
theorem calculate_gaze_direction_spec (lm : ℕ → ℚ × ℚ) (w h : ℕ)
    (hspan : (lm 33).1 < (lm 133).1) :
    ((calculate_gaze_direction lm w h).looking_at_camera = true ↔
        |horizontalRatioOf lm| < 3/10 ∧ |verticalRatioOf lm| < 3/10) ∧
    (calculate_gaze_direction lm w h).horizontal_ratio = round2 (horizontalRatioOf lm) ∧
    (calculate_gaze_direction lm w h).vertical_ratio = round2 (verticalRatioOf lm) := by
  refine ⟨?_, rfl, rfl⟩
  show decide (|horizontalRatioOf lm| < 3/10 ∧ |verticalRatioOf lm| < 3/10) = true ↔ _
  exact decide_eq_true_iff

/-- Landmark map of a face looking dead-center: left-eye corners at
x = 2/5 and 3/5, every other landmark at (1/2, 1/2). -/
def centeredLandmarks : ℕ → ℚ × ℚ := fun i =>
  if i = 33 then (2/5, 1/2) else if i = 133 then (3/5, 1/2) else (1/2, 1/2)

/-- Witness for C7: the centered face is classified as looking at the
camera. -/
theorem calculate_gaze_direction_spec_witness :
    (calculate_gaze_direction centeredLandmarks 640 480).looking_at_camera = true := by
  refine (calculate_gaze_direction_spec centeredLandmarks 640 480 (by norm_num [centeredLandmarks])).1.mpr ?_
  constructor
  · show |((meanQ (LEFT_IRIS.map (fun i => (centeredLandmarks i).1)) - (centeredLandmarks 33).1)
        / ((centeredLandmarks 133).1 - (centeredLandmarks 33).1) - 1/2) * 2| < 3/10
    norm_num [meanQ, LEFT_IRIS, centeredLandmarks]
  · show |(meanQ (LEFT_IRIS.map (fun i => (centeredLandmarks i).2)) - 1/2) * 2| < 3/10
    norm_num [meanQ, LEFT_IRIS, centeredLandmarks]

/-! ## C3: batch video analysis -/

/-- A frame outcome counts as a detected face. -/
def hasFace : Option FrameAnalysis → Bool
  | some f => f.face_detected
  | none => false

/-- A frame outcome counts toward eye contact: a detected face looking
at the camera. -/
def isLooking : Option FrameAnalysis → Bool
  | some f => f.face_detected && f.looking_at_camera
  | none => false

/-- A frame outcome is a gaze violation: a detected face that is not
looking at the camera. -/
def isViolating : Option FrameAnalysis → Bool
  | some f => f.face_detected && !f.looking_at_camera
  | none => false

/-- The violation record of one indexed frame outcome, when it is a
violation. -/
def violationPick : ℕ × Option FrameAnalysis → Option Violation
  | (idx, some f) =>
      if f.face_detected && !f.looking_at_camera then some ⟨idx, f.timestamp⟩ else none
  | (_, none) => none

/-- The full in-order violation list of a frame batch. -/
def violationsSpec (frames : List (Option FrameAnalysis)) : List Violation :=
  frames.enum.filterMap violationPick

/-- The indexed violation list has one entry per violating frame. -/
lemma length_filterMap_violationPick (frames : List (Option FrameAnalysis)) : ∀ idx,
    ((List.enumFrom idx frames).filterMap violationPick).length
      = frames.countP isViolating := by
  induction frames with
  | nil =>
      intro idx
      simp [List.enumFrom]
  | cons f rest ih =>
      intro idx
      cases f with
      | none =>
          simp [List.enumFrom, violationPick, List.countP_cons, isViolating, ih (idx + 1)]
      | some a =>
          rcases a with ⟨fd, lk, ts⟩
          cases fd <;> cases lk <;>
            simp [List.enumFrom, violationPick, List.countP_cons, isViolating, ih (idx + 1)]

/-- The frame loop computes the face count, the looking count and the
indexed violation list. -/
lemma scanFrames_eq (frames : List (Option FrameAnalysis)) : ∀ idx,
    scanFrames frames idx =
      (frames.countP hasFace, frames.countP isLooking,
       (List.enumFrom idx frames).filterMap violationPick) := by
  induction frames with
  | nil =>
      intro idx
      simp [scanFrames, List.enumFrom]
  | cons f rest ih =>
      intro idx
      cases f with
      | none =>
          simp [scanFrames, ih (idx + 1), List.enumFrom, violationPick,
                List.countP_cons, hasFace, isLooking]
      | some a =>
          rcases a with ⟨fd, lk, ts⟩
          cases fd <;> cases lk <;>
            simp [scanFrames, ih (idx + 1), List.enumFrom, violationPick,
                  List.countP_cons, hasFace, isLooking]

/-- C3, corrected: on a non-empty frame batch, `analyze_video_frames`
returns `total_frames` equal to the number of frames;
`face_detection_rate` is `frames_with_face / total_frames × 100`
rounded to two decimal places (the source applies `round(x, 2)`);
`eye_contact_score` is `frames_looking_at_camera / frames_with_face ×
100` rounded to two decimals, and exactly 0 when no face was detected,
with no division error; `gaze_violations` counts exactly the frames
with a detected face not looking at the camera; and
`violation_details` keeps only the first 10 violations with their
frame index and timestamp. -/
theorem analyze_video_frames_spec (frames : List (Option FrameAnalysis))
    (h : frames ≠ []) :
    ∃ m, analyze_video_frames frames = some m ∧
      m.total_frames = frames.length ∧
      m.frames_with_face = frames.countP hasFace ∧
      m.face_detection_rate
        = round2 (((frames.countP hasFace : ℚ) / (frames.length : ℚ)) * 100) ∧
      m.frames_looking_at_camera = frames.countP isLooking ∧
      (0 < frames.countP hasFace →
        m.eye_contact_score
          = round2 (((frames.countP isLooking : ℚ) / (frames.countP hasFace : ℚ)) * 100)) ∧
      (frames.countP hasFace = 0 → m.eye_contact_score = 0) ∧
      m.gaze_violations = frames.countP isViolating ∧
      m.violation_details = (violationsSpec frames).take 10 := by
  have hne : ¬ (frames.isEmpty = true) := by
    simp [List.isEmpty_iff, h]
  have he : analyze_video_frames frames = some
      ⟨frames.length, (scanFrames frames 0).1,
       round2 (if 0 < frames.length then
         (((scanFrames frames 0).1 : ℚ) / (frames.length : ℚ)) * 100 else 0),
       (scanFrames frames 0).2.1,
       round2 (if 0 < (scanFrames frames 0).1 then
         (((scanFrames frames 0).2.1 : ℚ) / ((scanFrames frames 0).1 : ℚ)) * 100 else 0),
       (scanFrames frames 0).2.2.length, (scanFrames frames 0).2.2.take 10⟩ := by
    unfold analyze_video_frames
    rw [if_neg hne]
  rw [scanFrames_eq frames 0] at he
  have hpos : 0 < frames.length := List.length_pos.mpr h
  refine ⟨_, he, rfl, rfl, ?_, rfl, ?_, ?_, ?_, ?_⟩
  · show round2 (if 0 < frames.length then _ else 0) = _
    rw [if_pos hpos]
  · intro hface
    show round2 (if 0 < frames.countP hasFace then _ else 0) = _
    rw [if_pos hface]
  · intro hface
    show round2 (if 0 < frames.countP hasFace then _ else 0) = 0
    rw [hface, if_neg (by norm_num)]
    exact round2_zero
  · exact length_filterMap_violationPick frames 0
  · rfl

/-- The spec's example batch: 10 frames, a face detected in 8, looking
at the camera in 6 of those. -/
def scenarioFrames : List (Option FrameAnalysis) :=
  [some ⟨true, true, 0⟩, some ⟨true, true, 1⟩, some ⟨true, true, 2⟩,
   some ⟨true, true, 3⟩, some ⟨true, true, 4⟩, some ⟨true, true, 5⟩,
   some ⟨true, false, 6⟩, some ⟨true, false, 7⟩,
   some ⟨false, false, 8⟩, some ⟨false, false, 9⟩]

/-- Witness for C3 on the spec's example batch: face detection rate
80, eye contact score 75, and 2 gaze violations. -/
theorem analyze_video_frames_spec_witness :
    ∃ m, analyze_video_frames scenarioFrames = some m ∧
      m.face_detection_rate = 80 ∧ m.eye_contact_score = 75 ∧
      m.gaze_violations = 2 := by
  obtain ⟨m, hm, _, _, hrate, _, heye, _, hviol, _⟩ :=
    analyze_video_frames_spec scenarioFrames (by decide)
  have hfaces : scenarioFrames.countP hasFace = 8 := by decide
  have hlook : scenarioFrames.countP isLooking = 6 := by decide
  have hlen : scenarioFrames.length = 10 := by decide
  refine ⟨m, hm, ?_, ?_, ?_⟩
  · rw [hrate, hfaces, hlen]
    have h80 := round2_intCast 80
    norm_num at h80 ⊢
    exact h80
  · rw [heye (by rw [hfaces]; norm_num), hfaces, hlook]
    have h75 := round2_intCast 75
    norm_num at h75 ⊢
    exact h75
  · rw [hviol]
    decide

/-- A batch of 3 frames with a face in 2 of them. -/
def threeFrames : List (Option FrameAnalysis) :=
  [some ⟨true, true, 0⟩, some ⟨true, false, 1⟩, some ⟨false, false, 2⟩]

/-- Counterexample for C3 as stated: with 2 faces in 3 frames the
stored face detection rate is 66.67, not the exact ratio
`2/3 × 100`. -/
theorem analyze_video_frames_counterexample :
    ¬ ((analyze_video_frames threeFrames).map VideoMetrics.face_detection_rate
        = some (2 / 3 * 100)) := by
  intro h
  have e : (analyze_video_frames threeFrames).map VideoMetrics.face_detection_rate
      = some (round2 ((((scanFrames threeFrames 0).1 : ℚ)
          / (threeFrames.length : ℚ)) * 100)) := rfl
  have h1 : (scanFrames threeFrames 0).1 = 2 := by decide
  have h2 : threeFrames.length = 3 := by decide
  rw [e, h1, h2] at h
  simp only [Option.some.injEq] at h
  norm_num at h
  rw [round2_concrete ((200 : ℚ) / 3) 6667 (by norm_num) (by norm_num)] at h
  norm_num at h

/-! ## C1: score aggregation -/

/-- Arithmetic mean of a score list, 0 when empty (matching the
aggregator's guard). -/
def meanOrZero (l : List ℚ) : ℚ :=
  if l.length = 0 then 0 else l.sum / (l.length : ℚ)

/-- The loop accumulator agrees with the filterMap sums and lengths
over the response list. -/
lemma scoreTotals_eq (rs : List Response) :
    (scoreTotals rs).total_audio = (rs.filterMap respAudio?).sum ∧
    (scoreTotals rs).audio_count = (rs.filterMap respAudio?).length ∧
    (scoreTotals rs).total_video = (rs.filterMap Response.eye_contact_score).sum ∧
    (scoreTotals rs).video_count = (rs.filterMap Response.eye_contact_score).length ∧
    (scoreTotals rs).total_content = (rs.filterMap Response.keyword_match_score).sum ∧
    (scoreTotals rs).content_count = (rs.filterMap Response.keyword_match_score).length := by
  induction rs with
  | nil => simp [scoreTotals]
  | cons r rest ih =>
      obtain ⟨i1, i2, i3, i4, i5, i6⟩ := ih
      rcases hra : respAudio? r with _ | a <;>
        rcases hv : r.eye_contact_score with _ | v <;>
          rcases hk : r.keyword_match_score with _ | k <;>
            simp [scoreTotals, hra, hv, hk, i1, i2, i3, i4, i5, i6, List.filterMap_cons]

/-- An `if`-guarded average equals `meanOrZero` of the filterMap list. -/
lemma avg_eq_meanOrZero (total : ℚ) (count : ℕ) (l : List ℚ)
    (ht : total = l.sum) (hc : count = l.length) :
    (if 0 < count then total / (count : ℚ) else 0) = meanOrZero l := by
  subst ht hc
  unfold meanOrZero
  by_cases hc0 : l.length = 0
  · rw [if_neg (by omega), if_pos hc0]
  · rw [if_pos (by omega), if_neg hc0]

/-- C1, corrected: for every interview with at least one response, the
per-response audio sub-score is `0.5 × sentiment_score + 0.5 ×
grammar_score` with the raw compound sentiment (roughly −1..1), not
the sentiment expressed as a percentage, and it is computed and
counted only when both components exist; each aggregate is the
arithmetic mean over exactly the responses carrying that metric; the
overall score is `0.5 × content_avg + 0.3 × audio_avg + 0.2 ×
video_avg`; all four returned scores are rounded to two decimal
places. -/
theorem calculate_overall_score_spec (rs : List Response) (h : rs ≠ []) :
    calculate_overall_score rs = some
      { overall_score := round2 (meanOrZero (rs.filterMap Response.keyword_match_score) * (1/2)
          + meanOrZero (rs.filterMap respAudio?) * (3/10)
          + meanOrZero (rs.filterMap Response.eye_contact_score) * (1/5)),
        content_score := round2 (meanOrZero (rs.filterMap Response.keyword_match_score)),
        audio_score := round2 (meanOrZero (rs.filterMap respAudio?)),
        video_score := round2 (meanOrZero (rs.filterMap Response.eye_contact_score)),
        total_questions := rs.length } := by
  obtain ⟨e1, e2, e3, e4, e5, e6⟩ := scoreTotals_eq rs
  have hne : ¬ (rs.isEmpty = true) := by simp [List.isEmpty_iff, h]
  have he : calculate_overall_score rs = some
      { overall_score := round2
          ((if 0 < (scoreTotals rs).content_count then
              (scoreTotals rs).total_content / ((scoreTotals rs).content_count : ℚ) else 0) * (1/2)
            + (if 0 < (scoreTotals rs).audio_count then
                (scoreTotals rs).total_audio / ((scoreTotals rs).audio_count : ℚ) else 0) * (3/10)
            + (if 0 < (scoreTotals rs).video_count then
                (scoreTotals rs).total_video / ((scoreTotals rs).video_count : ℚ) else 0) * (1/5)),
        content_score := round2 (if 0 < (scoreTotals rs).content_count then
          (scoreTotals rs).total_content / ((scoreTotals rs).content_count : ℚ) else 0),
        audio_score := round2 (if 0 < (scoreTotals rs).audio_count then
          (scoreTotals rs).total_audio / ((scoreTotals rs).audio_count : ℚ) else 0),
        video_score := round2 (if 0 < (scoreTotals rs).video_count then
          (scoreTotals rs).total_video / ((scoreTotals rs).video_count : ℚ) else 0),
        total_questions := rs.length } := by
    unfold calculate_overall_score
    rw [if_neg hne]
  rw [he, avg_eq_meanOrZero _ _ _ e1 e2, avg_eq_meanOrZero _ _ _ e3 e4,
      avg_eq_meanOrZero _ _ _ e5 e6]

/-- A response with compound sentiment 0.8, grammar 100, keyword match
80, eye contact 50. -/
def sampleResponse : Response :=
  { sentiment_score := some (4/5), grammar_score := some 100,
    keyword_match_score := some 80, eye_contact_score := some 50 }

/-- Witness for C1 on a one-response interview: content 80, audio
50.4 (from the raw 0.8 sentiment), video 50, overall 65.12. -/
theorem calculate_overall_score_spec_witness :
    calculate_overall_score [sampleResponse] = some
      { overall_score := 1628/25, content_score := 80,
        audio_score := 252/5, video_score := 50, total_questions := 1 } := by
  rw [calculate_overall_score_spec [sampleResponse] (by simp)]
  have hk : ([sampleResponse].filterMap Response.keyword_match_score) = [80] := rfl
  have hv : ([sampleResponse].filterMap Response.eye_contact_score) = [50] := rfl
  have ha : ([sampleResponse].filterMap respAudio?) = [4/5 * (1/2) + 100 * (1/2)] := rfl
  rw [hk, hv, ha]
  have hm1 : meanOrZero [(80 : ℚ)] = 80 := by simp [meanOrZero]
  have hm2 : meanOrZero [(50 : ℚ)] = 50 := by simp [meanOrZero]
  have hm3 : meanOrZero [(4/5 * (1/2) + 100 * (1/2) : ℚ)] = 252/5 := by
    simp [meanOrZero]
    norm_num
  rw [hm1, hm2, hm3]
  have hr1 : round2 ((80 : ℚ) * (1/2) + 252/5 * (3/10) + 50 * (1/5)) = 1628/25 := by
    rw [round2_concrete _ 6512 (by norm_num) (by norm_num)]
    norm_num
  have hr2 : round2 ((80 : ℚ)) = 80 := by
    have h80 := round2_intCast 80
    norm_num at h80
    exact h80
  have hr3 : round2 ((252 : ℚ)/5) = 252/5 := by
    rw [round2_concrete _ 5040 (by norm_num) (by norm_num)]
    norm_num
  have hr4 : round2 ((50 : ℚ)) = 50 := round2_fifty
  rw [hr1, hr2, hr3, hr4]
  rfl

/-- Counterexample for C1 as stated: on a one-response interview with
compound sentiment 0.8 and grammar 100, the aggregated audio score is
50.4, not the 90 that `0.5 × (sentiment as percentage) + 0.5 ×
grammar` would give. -/
theorem calculate_overall_score_counterexample :
    ¬ ((calculate_overall_score [sampleResponse]).map Scores.audio_score
        = some ((4/5 * 100) * (1/2) + 100 * (1/2))) := by
  intro h
  have e : (calculate_overall_score [sampleResponse]).map Scores.audio_score
      = some (round2 (if 0 < (scoreTotals [sampleResponse]).audio_count then
          (scoreTotals [sampleResponse]).total_audio
            / ((scoreTotals [sampleResponse]).audio_count : ℚ) else 0)) := rfl
  have hc : (scoreTotals [sampleResponse]).audio_count = 1 := by decide
  have ht : (scoreTotals [sampleResponse]).total_audio
      = 4/5 * (1/2) + 100 * (1/2) + 0 := rfl
  rw [e, hc, ht, if_pos (by norm_num)] at h
  simp only [Option.some.injEq] at h
  norm_num at h
  rw [round2_concrete ((252 : ℚ)/5) 5040 (by norm_num) (by norm_num)] at h
  norm_num at h

/-! ## C2 and C10: session violation tracking -/

/-- No navigation event within one interview decreases the violation
counter. -/
lemma applyStep_counter_mono (numQ : ℕ) (s : SessionState) (st : SessionStep) :
    s.total_gaze_violations ≤ (applyStep numQ s st).total_gaze_violations := by
  cases st with
  | answer vm r =>
      cases vm with
      | none => exact le_refl _
      | some m =>
          show s.total_gaze_violations ≤
            (if 5 ≤ s.total_gaze_violations + m.gaze_violations then _ else _ : SessionState).total_gaze_violations
          split_ifs <;> exact Nat.le_add_right _ _
  | previous =>
      show s.total_gaze_violations ≤
        (if 0 < s.current_question then _ else _ : SessionState).total_gaze_violations
      split_ifs <;> exact le_refl _
  | skipNext => exact le_refl _

/-- The violation counter is monotone along any sequence of
within-interview navigation events. -/
lemma applySteps_counter_mono (numQ : ℕ) (steps : List SessionStep) : ∀ s : SessionState,
    s.total_gaze_violations ≤ (applySteps numQ steps s).total_gaze_violations := by
  induction steps with
  | nil => intro s; exact le_refl _
  | cons st rest ih =>
      intro s
      calc s.total_gaze_violations
          ≤ (applyStep numQ s st).total_gaze_violations := applyStep_counter_mono numQ s st
        _ ≤ (applySteps numQ rest (applyStep numQ s st)).total_gaze_violations := ih _
        _ = (applySteps numQ (st :: rest) s).total_gaze_violations := rfl

/-- C2: within one interview the cumulative gaze-violation counter is
monotonically non-decreasing along every sequence of navigation
events; each scored answer adds its batch count atomically (an answer
without video metrics adds nothing); the counter returns to 0 exactly
by starting a new interview; and the moment the counter reaches 5
after recording a batch — and only then — the session jumps past the
last question, leaving the remaining questions unanswered and
accepting no further answers. -/
theorem session_violation_tracking (numQ : ℕ) (steps : List SessionStep)
    (s : SessionState) (vm : VideoMetrics) (r : SavedResponse) :
    s.total_gaze_violations ≤ (applySteps numQ steps s).total_gaze_violations ∧
    (reset_interview s).total_gaze_violations = 0 ∧
    (processAnswer numQ s (some vm) r).total_gaze_violations
      = s.total_gaze_violations + vm.gaze_violations ∧
    (processAnswer numQ s none r).total_gaze_violations = s.total_gaze_violations ∧
    (processAnswer numQ s (some vm) r).current_question
      = (if 5 ≤ s.total_gaze_violations + vm.gaze_violations then numQ
         else s.current_question + 1) ∧
    (processAnswer numQ s (some vm) r).saved_responses
      = (if 5 ≤ s.total_gaze_violations + vm.gaze_violations then s.saved_responses
         else s.saved_responses ++ [r]) ∧
    (5 ≤ s.total_gaze_violations + vm.gaze_violations →
       acceptsAnswers numQ (processAnswer numQ s (some vm) r) = false) := by
  refine ⟨applySteps_counter_mono numQ steps s, rfl, ?_, rfl, ?_, ?_, ?_⟩
  · show (if 5 ≤ s.total_gaze_violations + vm.gaze_violations
        then _ else _ : SessionState).total_gaze_violations = _
    split_ifs <;> rfl
  · show (if 5 ≤ s.total_gaze_violations + vm.gaze_violations
        then _ else _ : SessionState).current_question = _
    split_ifs <;> rfl
  · show (if 5 ≤ s.total_gaze_violations + vm.gaze_violations
        then _ else _ : SessionState).saved_responses = _
    split_ifs <;> rfl
  · intro h5
    have hcur : (processAnswer numQ s (some vm) r).current_question = numQ := by
      show (if 5 ≤ s.total_gaze_violations + vm.gaze_violations
          then _ else _ : SessionState).current_question = _
      rw [if_pos h5]
    simp [acceptsAnswers, hcur]

/-- Session state of an interview with 5 questions, on question 2,
with 2 accumulated gaze violations and one prior saved response. -/
def exampleState : SessionState :=
  { interview_id := some 1, current_question := 1, questions_generated := true,
    interview_completed := false, total_gaze_violations := 2,
    saved_responses := [⟨1, [Char.ofNat 104, Char.ofNat 105]⟩] }

/-- Video metrics of an answer batch carrying 3 gaze violations. -/
def exampleMetrics : VideoMetrics :=
  { total_frames := 10, frames_with_face := 8, face_detection_rate := 80,
    frames_looking_at_camera := 5, eye_contact_score := 62.5,
    gaze_violations := 3, violation_details := [] }

/-- The answer being recorded when the threshold is crossed. -/
def exampleResp : SavedResponse := ⟨2, [Char.ofNat 111, Char.ofNat 107]⟩

/-- Witness for C2: with 2 accumulated violations, recording a batch
of 3 terminates a 5-question interview at once. -/
theorem session_violation_tracking_witness :
    (processAnswer 5 exampleState (some exampleMetrics) exampleResp).current_question = 5 := by
  have h := (session_violation_tracking 5 [] exampleState exampleMetrics
    exampleResp).2.2.2.2.1
  rw [h, if_pos (by decide)]

/-- C10: when an answer's video batch pushes the cumulative counter to
5 or more, the script stops before the database save, so the
triggering answer is never persisted and the session is past the last
question. -/
theorem termination_precedes_save (numQ : ℕ) (s : SessionState) (vm : VideoMetrics)
    (r : SavedResponse) (h5 : 5 ≤ s.total_gaze_violations + vm.gaze_violations) :
    (processAnswer numQ s (some vm) r).saved_responses = s.saved_responses ∧
    (processAnswer numQ s (some vm) r).current_question = numQ := by
  constructor
  · show (if 5 ≤ s.total_gaze_violations + vm.gaze_violations
        then _ else _ : SessionState).saved_responses = _
    rw [if_pos h5]
  · show (if 5 ≤ s.total_gaze_violations + vm.gaze_violations
        then _ else _ : SessionState).current_question = _
    rw [if_pos h5]

/-- Witness for C10: the answer recorded while crossing the threshold
leaves the persisted responses unchanged. -/
theorem termination_precedes_save_witness :
    (processAnswer 5 exampleState (some exampleMetrics) exampleResp).saved_responses
      = exampleState.saved_responses :=
  (termination_precedes_save 5 exampleState exampleMetrics exampleResp (by decide)).1

/-! ## C8: feedback persistence upsert -/

/-- Replacing the first match does not change the list length. -/
lemma replaceFirst_length (p : α → Bool) (f : α → α) (l : List α) :
    (replaceFirst p f l).length = l.length := by
  induction l with
  | nil => rfl
  | cons x xs ih =>
      unfold replaceFirst
      split_ifs <;> simp [ih]

/-- Replacing the first match preserves any projection the update
leaves untouched. -/
lemma map_replaceFirst (p : α → Bool) (f : α → α) (g : α → β)
    (hg : ∀ a, g (f a) = g a) (l : List α) :
    (replaceFirst p f l).map g = l.map g := by
  induction l with
  | nil => rfl
  | cons x xs ih =>
      unfold replaceFirst
      split_ifs <;> simp [ih, hg]

/-- Replacing the first match preserves any count the update leaves
invariant. -/
lemma countP_replaceFirst (p q : α → Bool) (f : α → α)
    (hf : ∀ a, q (f a) = q a) (l : List α) :
    (replaceFirst p f l).countP q = l.countP q := by
  induction l with
  | nil => rfl
  | cons x xs ih =>
      unfold replaceFirst
      split_ifs <;> simp [List.countP_cons, ih, hf]

/-- Finding again after replacing the first match returns the updated
row, provided the update keeps the match. -/
lemma find?_replaceFirst (p : α → Bool) (f : α → α)
    (hf : ∀ a, p a = true → p (f a) = true) (l : List α) :
    (replaceFirst p f l).find? p = (l.find? p).map f := by
  induction l with
  | nil => rfl
  | cons x xs ih =>
      cases hx : p x with
      | true =>
          unfold replaceFirst
          rw [if_pos hx]
          rw [List.find?_cons_of_pos _ (hf x hx), List.find?_cons_of_pos _ hx]
          rfl
      | false =>
          unfold replaceFirst
          rw [if_neg (by simp [hx])]
          rw [List.find?_cons_of_neg _ (by simp [hx]), List.find?_cons_of_neg _ (by simp [hx])]
          exact ih

/-- Searching an appended list skips a prefix with no match. -/
lemma find?_append_none (p : α → Bool) {l1 : List α} (l2 : List α)
    (h : l1.find? p = none) : (l1 ++ l2).find? p = l2.find? p := by
  induction l1 with
  | nil => rfl
  | cons x xs ih =>
      rw [List.find?_eq_none] at h
      have hx : ¬ (p x = true) := h x (by simp)
      rw [List.cons_append, List.find?_cons_of_neg _ hx]
      exact ih (List.find?_eq_none.mpr (fun a ha => h a (by simp [ha])))

/-- The row appended by the create branch of `save_feedback`. -/
def newFeedbackRow (interview_id : ℕ) (scores : Scores) (ai : AIFeedback)
    (qa : List Char) (newId : ℕ) : FeedbackRow :=
  { id := newId, interview_id := interview_id,
    overall_score := scores.overall_score,
    content_score := scores.content_score,
    audio_score := scores.audio_score,
    video_score := scores.video_score,
    strengths := joinLines ai.strengths,
    weaknesses := joinLines ai.weaknesses,
    recommendations := joinLines ai.recommendations,
    question_wise_analysis := qa }

/-- C8: `save_feedback` is an upsert keyed by interview id.  Starting
from a store with at most one feedback row per interview and a
non-empty response list: afterwards the interview has exactly one
feedback row and every interview still has at most one; if a row
already existed, the returned id is that row's id and the stored ids
are unchanged (update in place); otherwise exactly one new row for the
interview is appended; and regenerating immediately afterwards (with a
possibly different narrative) returns the same id and inserts no
duplicate. -/
theorem save_feedback_upsert (db : List FeedbackRow) (iid : ℕ) (rs : List Response)
    (ai ai2 : AIFeedback) (qa qa2 : List Char) (newId newId2 : ℕ)
    (hrs : rs ≠ [])
    (hinv : ∀ j, feedbackCount db j ≤ 1) :
    feedbackCount (save_feedback db iid rs ai qa newId).2 iid = 1 ∧
    (∀ j, feedbackCount (save_feedback db iid rs ai qa newId).2 j ≤ 1) ∧
    (∀ ex, db.find? (fun r => r.interview_id == iid) = some ex →
        (save_feedback db iid rs ai qa newId).1 = some ex.id ∧
        (save_feedback db iid rs ai qa newId).2.map FeedbackRow.id
          = db.map FeedbackRow.id) ∧
    (db.find? (fun r => r.interview_id == iid) = none →
        ∃ sc, calculate_overall_score rs = some sc ∧
          (save_feedback db iid rs ai qa newId).1 = some newId ∧
          (save_feedback db iid rs ai qa newId).2
            = db ++ [newFeedbackRow iid sc ai qa newId]) ∧
    ((save_feedback (save_feedback db iid rs ai qa newId).2 iid rs ai2 qa2 newId2).1
        = (save_feedback db iid rs ai qa newId).1 ∧
      (save_feedback (save_feedback db iid rs ai qa newId).2 iid rs ai2 qa2 newId2).2.length
        = (save_feedback db iid rs ai qa newId).2.length) := by
  obtain ⟨sc, hsc⟩ : ∃ sc, calculate_overall_score rs = some sc := by
    unfold calculate_overall_score
    rw [if_neg (by simp [List.isEmpty_iff, hrs])]
    exact ⟨_, rfl⟩
  have hid1 : ∀ a, FeedbackRow.id (updateFeedbackRow sc ai qa a) = FeedbackRow.id a :=
    fun a => rfl
  have hid2 : ∀ a, FeedbackRow.id (updateFeedbackRow sc ai2 qa2 a) = FeedbackRow.id a :=
    fun a => rfl
  cases hfind : db.find? (fun r => r.interview_id == iid) with
  | some ex =>
      have hrun1 : save_feedback db iid rs ai qa newId
          = (some ex.id,
             replaceFirst (fun r => r.interview_id == iid)
               (updateFeedbackRow sc ai qa) db) := by
        unfold save_feedback
        rw [hsc, hfind]
      have hcount : ∀ j, feedbackCount
          (replaceFirst (fun r => r.interview_id == iid)
            (updateFeedbackRow sc ai qa) db) j = feedbackCount db j := by
        intro j
        exact countP_replaceFirst (fun r => r.interview_id == iid)
          (fun r => r.interview_id == j) (updateFeedbackRow sc ai qa) (fun a => rfl) db
      have hpex : (ex.interview_id == iid) = true := by
        have h := List.find?_some hfind
        simpa using h
      have hpos : 0 < feedbackCount db iid := by
        rw [feedbackCount, List.countP_pos_iff]
        exact ⟨ex, List.mem_of_find?_eq_some hfind, hpex⟩
      have hfind2 : (replaceFirst (fun r => r.interview_id == iid)
            (updateFeedbackRow sc ai qa) db).find? (fun r => r.interview_id == iid)
          = some (updateFeedbackRow sc ai qa ex) := by
        rw [find?_replaceFirst (fun r => r.interview_id == iid)
          (updateFeedbackRow sc ai qa) (fun a h => h) db, hfind]
        rfl
      have hrun2 : save_feedback
            (replaceFirst (fun r => r.interview_id == iid)
              (updateFeedbackRow sc ai qa) db) iid rs ai2 qa2 newId2
          = (some ex.id,
             replaceFirst (fun r => r.interview_id == iid)
               (updateFeedbackRow sc ai2 qa2)
               (replaceFirst (fun r => r.interview_id == iid)
                 (updateFeedbackRow sc ai qa) db)) := by
        unfold save_feedback
        rw [hsc, hfind2]
        rfl
      refine ⟨?_, ?_, ?_, ?_, ?_⟩
      · rw [hrun1]
        rw [hcount iid]
        have h1 := hinv iid
        omega
      · intro j
        rw [hrun1]
        rw [hcount j]
        exact hinv j
      · intro ex' hex'
        cases hex'
        rw [hrun1]
        exact ⟨rfl, map_replaceFirst (fun r => r.interview_id == iid)
          (updateFeedbackRow sc ai qa) FeedbackRow.id hid1 db⟩
      · intro hnone
        exact Option.noConfusion hnone
      · rw [hrun1, hrun2]
        refine ⟨rfl, ?_⟩
        show (replaceFirst _ _ _).length = _
        rw [replaceFirst_length]
  | none =>
      have hall : ∀ a ∈ db, ¬ ((fun r => r.interview_id == iid) a = true) :=
        List.find?_eq_none.mp hfind
      have hrun1 : save_feedback db iid rs ai qa newId
          = (some newId, db ++ [newFeedbackRow iid sc ai qa newId]) := by
        unfold save_feedback
        rw [hsc, hfind]
        rfl
      have hzero : feedbackCount db iid = 0 := by
        rw [feedbackCount, List.countP_eq_zero]
        exact hall
      have hnewmatch : ((newFeedbackRow iid sc ai qa newId).interview_id == iid) = true := by
        simp [newFeedbackRow]
      have hcountapp : ∀ j, feedbackCount (db ++ [newFeedbackRow iid sc ai qa newId]) j
          = feedbackCount db j
            + (if (newFeedbackRow iid sc ai qa newId).interview_id == j then 1 else 0) := by
        intro j
        rw [feedbackCount, List.countP_append]
        congr 1
        simp [List.countP_cons]
      have hfind2 : (db ++ [newFeedbackRow iid sc ai qa newId]).find?
            (fun r => r.interview_id == iid)
          = some (newFeedbackRow iid sc ai qa newId) := by
        rw [find?_append_none _ _ hfind]
        exact List.find?_cons_of_pos _ hnewmatch
      have hrun2 : save_feedback (db ++ [newFeedbackRow iid sc ai qa newId]) iid rs ai2 qa2 newId2
          = (some newId,
             replaceFirst (fun r => r.interview_id == iid)
               (updateFeedbackRow sc ai2 qa2)
               (db ++ [newFeedbackRow iid sc ai qa newId])) := by
        unfold save_feedback
        rw [hsc, hfind2]
        rfl
      refine ⟨?_, ?_, ?_, ?_, ?_⟩
      · rw [hrun1]
        rw [hcountapp iid, hzero, if_pos hnewmatch]
      · intro j
        rw [hrun1]
        rw [hcountapp j]
        by_cases hj : iid = j
        · subst hj
          rw [hzero, if_pos hnewmatch]
        · rw [if_neg (by simp [newFeedbackRow, hj])]
          have := hinv j
          omega
      · intro ex' hex'
        exact Option.noConfusion hex'
      · intro _
        exact ⟨sc, hsc, by rw [hrun1], by rw [hrun1]⟩
      · rw [hrun1, hrun2]
        refine ⟨rfl, ?_⟩
        show (replaceFirst _ _ _).length = _
        rw [replaceFirst_length]

/-- A one-row store for another interview. -/
def otherRow : FeedbackRow :=
  { id := 7, interview_id := 3, overall_score := 60, content_score := 60,
    audio_score := 60, video_score := 60, strengths := [],
    weaknesses := [], recommendations := [], question_wise_analysis := [] }

/-- Witness for C8: saving feedback for interview 9 into a store
holding one row for interview 3 keeps at most one row per interview
and exactly one for interview 9. -/
theorem save_feedback_upsert_witness :
    feedbackCount (save_feedback [otherRow] 9 [sampleResponse]
      ⟨[], [], []⟩ [] 8).2 9 = 1 :=
  (save_feedback_upsert [otherRow] 9 [sampleResponse] ⟨[], [], []⟩ ⟨[], [], []⟩
    [] [] 8 10 (by simp)
    (fun j => le_trans (List.countP_le_length _) (by simp))).1

end InterviewSystem
